import Mathlib

/-!
Verification of the sync orchestrator in `src/app.py` (KingLion-OS/two_way_sync).

The development shallowly embeds the pure data flow of `DataSyncManager`:
tabular data (`DataFrame`), the pandas `DataFrame.to_string` rendering used by
`_calculate_data_hash`, the MD5 digest (`hashlib.md5(...).hexdigest()`), the
four collaborator wrappers (`read_google_sheets_data`, `read_onedrive_excel_data`,
`write_onedrive_excel_data`, `write_google_sheets_data`) and the orchestration
function `sync_data`.  Remote behaviour (Google Sheets API, Microsoft Graph,
file transport) is out of scope per the spec; each remote call's outcome is an
input to the corresponding wrapper, including an explicit `raise` alternative
standing for any exception thrown by the remote library, so that the wrappers'
`try/except` conversion to result values is part of the model.
-/

set_option autoImplicit false
set_option maxRecDepth 100000

namespace TwoWaySync

/-! ## Tabular data model

`pd.DataFrame(values[1:], columns=values[0])`: a frame is a header (column
names) plus a list of rows of string cells, with the default `RangeIndex`. -/

structure DataFrame where
  columns : List String
  rows : List (List String)
  deriving DecidableEq, Repr

/-- The shapes a "data" slot can take in the Python code: `None`, the empty
list `[]` (returned by `read_google_sheets_data` when the sheet is empty),
or a pandas `DataFrame`. -/
inductive PyData where
  | pynone
  | emptyList
  | frame (df : DataFrame)
  deriving DecidableEq, Repr

/-! ## MD5 (`hashlib.md5(data_str.encode()).hexdigest()`)

Implemented over byte lists (`List Nat`, each element < 256), words as `Nat`
reduced mod `2 ^ 32`. -/

/-- Truncate to a 32-bit word. -/
def w32 (n : Nat) : Nat := n % 4294967296

/-- Rotate a 32-bit word left by `s` bits (`0 < s < 32`). -/
def rotl32 (x s : Nat) : Nat := w32 (x * 2 ^ s) + x / 2 ^ (32 - s)

/-- The 64 MD5 sine-derived constants (RFC 1321). -/
def md5KTable : List Nat :=
  [0xd76aa478, 0xe8c7b756, 0x242070db, 0xc1bdceee,
   0xf57c0faf, 0x4787c62a, 0xa8304613, 0xfd469501,
   0x698098d8, 0x8b44f7af, 0xffff5bb1, 0x895cd7be,
   0x6b901122, 0xfd987193, 0xa679438e, 0x49b40821,
   0xf61e2562, 0xc040b340, 0x265e5a51, 0xe9b6c7aa,
   0xd62f105d, 0x02441453, 0xd8a1e681, 0xe7d3fbc8,
   0x21e1cde6, 0xc33707d6, 0xf4d50d87, 0x455a14ed,
   0xa9e3e905, 0xfcefa3f8, 0x676f02d9, 0x8d2a4c8a,
   0xfffa3942, 0x8771f681, 0x6d9d6122, 0xfde5380c,
   0xa4beea44, 0x4bdecfa9, 0xf6bb4b60, 0xbebfbc70,
   0x289b7ec6, 0xeaa127fa, 0xd4ef3085, 0x04881d05,
   0xd9d4d039, 0xe6db99e5, 0x1fa27cf8, 0xc4ac5665,
   0xf4292244, 0x432aff97, 0xab9423a7, 0xfc93a039,
   0x655b59c3, 0x8f0ccc92, 0xffeff47d, 0x85845dd1,
   0x6fa87e4f, 0xfe2ce6e0, 0xa3014314, 0x4e0811a1,
   0xf7537e82, 0xbd3af235, 0x2ad7d2bb, 0xeb86d391]

def md5K (i : Nat) : Nat := md5KTable.getD i 0

/-- The per-round left-rotation amounts. -/
def md5S (i : Nat) : Nat :=
  (if i < 16 then [7, 12, 17, 22]
   else if i < 32 then [5, 9, 14, 20]
   else if i < 48 then [4, 11, 16, 23]
   else [6, 10, 15, 21]).getD (i % 4) 0

/-- Round function and message-word index for round `i`. -/
def md5F (b c d i : Nat) : Nat × Nat :=
  if i < 16 then ((b &&& c) ||| ((0xffffffff ^^^ b) &&& d), i)
  else if i < 32 then ((d &&& b) ||| ((0xffffffff ^^^ d) &&& c), (5 * i + 1) % 16)
  else if i < 48 then (b ^^^ c ^^^ d, (3 * i + 5) % 16)
  else (c ^^^ (b ||| (0xffffffff ^^^ d)), (7 * i) % 16)

/-- Little-endian 32-bit word at index `j` of a 64-byte block. -/
def wordAt (block : List Nat) (j : Nat) : Nat :=
  block.getD (4 * j) 0 + 256 * block.getD (4 * j + 1) 0 +
    65536 * block.getD (4 * j + 2) 0 + 16777216 * block.getD (4 * j + 3) 0

def md5Init : Nat × Nat × Nat × Nat := (0x67452301, 0xefcdab89, 0x98badcfe, 0x10325476)

/-- Process one 64-byte block. -/
def md5Block (st : Nat × Nat × Nat × Nat) (block : List Nat) : Nat × Nat × Nat × Nat :=
  let (a0, b0, c0, d0) := st
  let (a, b, c, d) := (List.range 64).foldl
    (fun st i =>
      let (a, b, c, d) := st
      let (f, g) := md5F b c d i
      (d, w32 (b + rotl32 (w32 (a + f + md5K i + wordAt block g)) (md5S i)), b, c))
    (a0, b0, c0, d0)
  (w32 (a0 + a), w32 (b0 + b), w32 (c0 + c), w32 (d0 + d))

/-- Little-endian length field (8 bytes) of the bit length. -/
def md5LenBytes (n : Nat) : List Nat :=
  let v := (n * 8) % 2 ^ 64
  [v % 256, v / 2 ^ 8 % 256, v / 2 ^ 16 % 256, v / 2 ^ 24 % 256,
   v / 2 ^ 32 % 256, v / 2 ^ 40 % 256, v / 2 ^ 48 % 256, v / 2 ^ 56 % 256]

/-- MD5 padding: `0x80`, zeros to 56 mod 64, then the bit length. -/
def md5Pad (msg : List Nat) : List Nat :=
  msg ++ [128] ++ List.replicate ((56 + 64 - (msg.length + 1) % 64) % 64) 0 ++
    md5LenBytes msg.length

/-- Split a byte list into 64-byte chunks (`fuel` bounds the number of steps;
each step consumes at least one byte, so the list's length is enough fuel). -/
def chunk64Aux : Nat → List Nat → List (List Nat)
  | 0, _ => []
  | _, [] => []
  | fuel + 1, x :: xs => ((x :: xs).take 64) :: chunk64Aux fuel ((x :: xs).drop 64)

/-- Split a byte list into 64-byte chunks. -/
def chunk64 (l : List Nat) : List (List Nat) := chunk64Aux l.length l

def hexChar (n : Nat) : Char :=
  if n < 10 then Char.ofNat (48 + n) else Char.ofNat (87 + n)

def byteHex (b : Nat) : String := String.mk [hexChar (b / 16), hexChar (b % 16)]

def wordLEBytes (w : Nat) : List Nat :=
  [w % 256, w / 256 % 256, w / 65536 % 256, w / 16777216 % 256]

/-- `hashlib.md5(bytes).hexdigest()`. -/
def md5hexBytes (msg : List Nat) : String :=
  let st := (chunk64 (md5Pad msg)).foldl md5Block md5Init
  String.join ((wordLEBytes st.1 ++ wordLEBytes st.2.1 ++
    wordLEBytes st.2.2.1 ++ wordLEBytes st.2.2.2).map byteHex)

/-- UTF-8 encoding of one character (`str.encode()` uses UTF-8). -/
def utf8Char (c : Char) : List Nat :=
  let n := c.toNat
  if n < 128 then [n]
  else if n < 2048 then [192 + n / 64, 128 + n % 64]
  else if n < 65536 then [224 + n / 4096, 128 + n / 64 % 64, 128 + n % 64]
  else [240 + n / 262144, 128 + n / 4096 % 64, 128 + n / 64 % 64, 128 + n % 64]

def utf8Encode (s : String) : List Nat :=
  s.data.foldr (fun c acc => utf8Char c ++ acc) []

/-! ## `DataFrame.to_string` (pandas default rendering)

`_calculate_data_hash` stringifies a frame with `data.to_string()`.  For a
frame of string cells with the default `RangeIndex`, pandas renders: one
header line and one line per row; the index column (header empty, labels
`str(i)`) and each data column are right-justified to the column's width;
each data cell is formatted with a leading space; columns are joined with a
single space.  An empty frame renders as the `Empty DataFrame` form. -/

def padLeft (w : Nat) (s : String) : String :=
  String.mk (List.replicate (w - s.length) ' ') ++ s

def maxNat (l : List Nat) : Nat := l.foldl Nat.max 0

def dfToString (df : DataFrame) : String :=
  match df.rows with
  | [] =>
    "Empty DataFrame\nColumns: [" ++ String.intercalate ", " df.columns ++ "]\nIndex: []"
  | _ =>
    let n := df.rows.length
    let idxLabels := (List.range n).map (fun i => toString i)
    let idxWidth := maxNat (idxLabels.map String.length)
    let ncols := df.columns.length
    let cellStr := fun (i j : Nat) => " " ++ ((df.rows.getD i []).getD j "")
    let colWidth := fun (j : Nat) =>
      Nat.max (df.columns.getD j "").length
        (maxNat ((List.range n).map (fun i => (cellStr i j).length)))
    let headerLine := padLeft idxWidth "" ++
      String.join ((List.range ncols).map (fun j => " " ++ padLeft (colWidth j) (df.columns.getD j "")))
    let rowLine := fun (i : Nat) =>
      padLeft idxWidth (idxLabels.getD i "") ++
        String.join ((List.range ncols).map (fun j => " " ++ padLeft (colWidth j) (cellStr i j)))
    String.intercalate "\n" (headerLine :: (List.range n).map rowLine)

/-- `str(data)` for the non-`DataFrame` shapes the code can hold in a data
slot: `str([])` and `str(None)`. -/
def pyStr : PyData → String
  | .frame df => dfToString df
  | .emptyList => "[]"
  | .pynone => "None"

/-- `DataSyncManager._calculate_data_hash` (app.py lines 226-232):
`data.to_string()` when the value is a `DataFrame`, else `str(data)`,
then `hashlib.md5(data_str.encode()).hexdigest()`. -/
def calculate_data_hash (data : PyData) : String :=
  md5hexBytes (utf8Encode (pyStr data))

/-! ## Collaborator call outcomes

Each wrapper's remote interaction is a black box (spec section 1, OUT OF
SCOPE); its outcome is an input, with a `raise` alternative standing for any
exception the remote library throws inside the wrapper's `try` block. -/

/-- Outcome of `spreadsheets().values().get(...).execute()` in
`read_google_sheets_data`: the `values` list, or an exception. -/
inductive SheetsRead where
  | raise (msg : String)
  | vals (values : List (List String))
  deriving DecidableEq, Repr

/-- Outcome of `pd.read_excel` on the downloaded workbook content. -/
inductive ExcelParse where
  | raise (msg : String)
  | df (frame : DataFrame)
  deriving DecidableEq, Repr

/-- Outcome of the OneDrive download in `read_onedrive_excel_data`:
an exception, or an HTTP response with status code and (if the body is
consumed) the parse outcome. -/
inductive ExcelRead where
  | raise (msg : String)
  | resp (status : Nat) (parse : ExcelParse)
  deriving DecidableEq, Repr

/-- Outcome of the OneDrive upload (`requests.put`) in
`write_onedrive_excel_data`: an exception, or an HTTP status code. -/
inductive WriteBehavior where
  | raise (msg : String)
  | resp (status : Nat)
  deriving DecidableEq, Repr

/-- Outcome of the clear-and-update calls in `write_google_sheets_data`:
an exception, or the reported `updatedCells` count. -/
inductive SheetsWrite where
  | raise (msg : String)
  | updated (cells : Nat)
  deriving DecidableEq, Repr

/-! ## Collaborator wrappers (app.py lines 109-232)

Every message the wrappers produce is a non-empty string, so the Python
truthiness tests `if google_error:` / `if excel_error:` coincide with
`Option.isSome` on the error component. -/

/-- `DataSyncManager.read_google_sheets_data` (app.py lines 109-128).
`service` is whether `self.google_service` initialized at startup. -/
def read_google_sheets_data (service : Bool) (r : SheetsRead) : PyData × Option String :=
  if service = false then (.pynone, some "Google Sheets service not initialized")
  else
    match r with
    | .raise e => (.pynone, some ("Error reading Google Sheets: " ++ e))
    | .vals values =>
      if values.isEmpty then (.emptyList, some "No data found in Google Sheets")
      else (.frame ⟨values.headD [], values.tail⟩, none)

/-- `DataSyncManager.read_onedrive_excel_data` (app.py lines 162-189).
`token` is the result of `self._get_access_token()` at this call. -/
def read_onedrive_excel_data (token : Option String) (r : ExcelRead) : PyData × Option String :=
  match token with
  | none => (.pynone, some "Failed to get access token for OneDrive")
  | some _ =>
    match r with
    | .raise e => (.pynone, some ("Error reading OneDrive Excel: " ++ e))
    | .resp status parse =>
      if status ≠ 200 then (.pynone, some ("Error downloading Excel file: " ++ toString status))
      else
        match parse with
        | .raise e => (.pynone, some ("Error reading OneDrive Excel: " ++ e))
        | .df f => (.frame f, none)

/-- `DataSyncManager.write_onedrive_excel_data` (app.py lines 191-224).
The local temp-file round trip does not affect the returned value; the
upload outcome `w` decides it. -/
def write_onedrive_excel_data (token : Option String) (data : PyData) (w : WriteBehavior) :
    Bool × String :=
  match token with
  | none => (false, "Failed to get access token for OneDrive")
  | some _ =>
    match w with
    | .raise e => (false, "Error writing to OneDrive Excel: " ++ e)
    | .resp status =>
      if status = 200 ∨ status = 201 then (true, "Excel file updated successfully")
      else (false, "Error uploading Excel file: " ++ toString status)

/-- `DataSyncManager.write_google_sheets_data` (app.py lines 130-160). -/
def write_google_sheets_data (service : Bool) (data : PyData) (w : SheetsWrite) :
    Bool × String :=
  if service = false then (false, "Google Sheets service not initialized")
  else
    match w with
    | .raise e => (false, "Error writing to Google Sheets: " ++ e)
    | .updated n => (true, "Updated " ++ toString n ++ " cells")

/-! ## The orchestrator `sync_data` (app.py lines 234-284) -/

/-- One invocation's environment: the collaborator handles' initialization
state and the outcome each remote interaction would have if performed.
`read_onedrive_excel_data` and `write_onedrive_excel_data` each call
`_get_access_token()` separately, hence two token slots. -/
structure SyncEnv where
  googleService : Bool
  gRead : SheetsRead
  readToken : Option String
  eRead : ExcelRead
  writeToken : Option String
  eWrite : WriteBehavior
  sWrite : SheetsWrite
  deriving DecidableEq, Repr

/-- The collaborator calls `sync_data` performs, in order.  `readA`/`readB`
are calls of the two read wrappers; `writeB`/`writeA` are calls of
`write_onedrive_excel_data` / `write_google_sheets_data` with the data
passed. -/
inductive CallEvent where
  | readA
  | readB
  | writeB (data : PyData)
  | writeA (data : PyData)
  deriving DecidableEq, Repr

/-- app.py line 262: `google_modified = True  # Assume Google Sheets was
modified more recently` - a hardcoded constant. -/
def google_modified : Bool := true

/-- The body of `sync_data`'s `try` block, in an exception monad: a
`Except.error` value would be an exception reaching the outer `except`
handler.  Every statement of the `try` block that can raise is one of the
wrapper calls, and those catch at their own boundary and return pairs, so
no `Except.error` is ever constructed.  Alongside the returned
`(success, message)` pair the embedding records the trace of collaborator
calls. -/
def sync_try (env : SyncEnv) : Except String ((Bool × String) × List CallEvent) :=
  match read_google_sheets_data env.googleService env.gRead with
  | (_, some e) =>
    Except.ok ((false, "Google Sheets error: " ++ e), [CallEvent.readA])
  | (google_data, none) =>
    match read_onedrive_excel_data env.readToken env.eRead with
    | (_, some e) =>
      Except.ok ((false, "OneDrive Excel error: " ++ e), [CallEvent.readA, CallEvent.readB])
    | (excel_data, none) =>
      if calculate_data_hash google_data = calculate_data_hash excel_data then
        Except.ok ((true, "No differences found - sync skipped"),
          [CallEvent.readA, CallEvent.readB])
      else
        if google_modified then
          match write_onedrive_excel_data env.writeToken google_data env.eWrite with
          | (true, _) =>
            Except.ok ((true, "Sync completed: Google Sheets → OneDrive Excel"),
              [CallEvent.readA, CallEvent.readB, CallEvent.writeB google_data])
          | (false, message) =>
            Except.ok ((false, "Failed to sync to Excel: " ++ message),
              [CallEvent.readA, CallEvent.readB, CallEvent.writeB google_data])
        else
          match write_google_sheets_data env.googleService excel_data env.sWrite with
          | (true, _) =>
            Except.ok ((true, "Sync completed: OneDrive Excel → Google Sheets"),
              [CallEvent.readA, CallEvent.readB, CallEvent.writeA excel_data])
          | (false, message) =>
            Except.ok ((false, "Failed to sync to Google Sheets: " ++ message),
              [CallEvent.readA, CallEvent.readB, CallEvent.writeA excel_data])

/-- `DataSyncManager.sync_data`: the `try` body, with the outer
`except Exception` handler converting an escaping exception into
`(False, f"Sync error: {e}")`. -/
def sync_data (env : SyncEnv) : (Bool × String) × List CallEvent :=
  match sync_try env with
  | Except.ok r => r
  | Except.error e => ((false, "Sync error: " ++ e), [])

/-! ## The `/status` route (app.py lines 312-322) -/

structure StatusJson where
  google_sheets : String
  onedrive : String
  timestamp : String
  deriving DecidableEq, Repr

/-- The `/status` handler: `"OK" if sync_manager.google_service else "Not
configured"`, likewise for `msal_app`, plus the current time.  In the
spec's glossary the `google_sheets` field is source A and the `onedrive`
field is source B. -/
def status_route (googleService msalApp : Bool) (now : String) : StatusJson :=
  { google_sheets := if googleService then "OK" else "Not configured"
    onedrive := if msalApp then "OK" else "Not configured"
    timestamp := now }

/-! ## Call-boundary views for the frame claim

Python passes the snapshot by reference; these variants return, next to the
call's result, the value the passed object holds after the call.  The body
of `_calculate_data_hash` only calls `to_string`/`str`, and the body of
`write_onedrive_excel_data` only calls `to_excel` and file/HTTP transport,
none of which assigns to or mutates the frame, so the post-call value is
the argument itself. -/

def calculate_data_hash_call (data : PyData) : String × PyData :=
  (calculate_data_hash data, data)

def write_onedrive_excel_data_call (token : Option String) (data : PyData)
    (w : WriteBehavior) : (Bool × String) × PyData :=
  (write_onedrive_excel_data token data w, data)

/-! ## Consecutive invocations

`writtenToB` extracts the data written to source B during an invocation,
and `envAfter` is the environment a second invocation sees when no external
change touches either source: source B's read now returns what was written
to it (the collaborator's write-then-read consistency), everything else is
as before. -/

def writtenToB (tr : List CallEvent) : Option PyData :=
  (tr.filterMap (fun ev => match ev with | CallEvent.writeB d => some d | _ => none)).head?

def envAfter (env : SyncEnv) : SyncEnv :=
  match writtenToB (sync_data env).2 with
  | some (PyData.frame df) => { env with eRead := ExcelRead.resp 200 (ExcelParse.df df) }
  | _ => env

/-- Count of cell positions at which two frames hold different values. -/
def diffCellCount (a b : DataFrame) : Nat :=
  ((a.rows.zip b.rows).map
    (fun p => (p.1.zip p.2).countP (fun q => q.1 != q.2))).sum

/-! ## Branch lemmas for `sync_data` -/

theorem sync_data_gfail (env : SyncEnv) (gd : PyData) (err : String)
    (hg : read_google_sheets_data env.googleService env.gRead = (gd, some err)) :
    sync_data env = ((false, "Google Sheets error: " ++ err), [CallEvent.readA]) := by
  unfold sync_data sync_try
  rw [hg]

theorem sync_data_efail (env : SyncEnv) (gd ed : PyData) (err : String)
    (hg : read_google_sheets_data env.googleService env.gRead = (gd, none))
    (he : read_onedrive_excel_data env.readToken env.eRead = (ed, some err)) :
    sync_data env = ((false, "OneDrive Excel error: " ++ err),
      [CallEvent.readA, CallEvent.readB]) := by
  unfold sync_data sync_try
  rw [hg]
  dsimp only
  rw [he]

theorem sync_data_skip (env : SyncEnv) (gd ed : PyData)
    (hg : read_google_sheets_data env.googleService env.gRead = (gd, none))
    (he : read_onedrive_excel_data env.readToken env.eRead = (ed, none))
    (hh : calculate_data_hash gd = calculate_data_hash ed) :
    sync_data env = ((true, "No differences found - sync skipped"),
      [CallEvent.readA, CallEvent.readB]) := by
  unfold sync_data sync_try
  rw [hg]
  dsimp only
  rw [he]
  dsimp only
  rw [if_pos hh]

theorem sync_data_write (env : SyncEnv) (gd ed : PyData) (s : Bool) (m : String)
    (hg : read_google_sheets_data env.googleService env.gRead = (gd, none))
    (he : read_onedrive_excel_data env.readToken env.eRead = (ed, none))
    (hne : calculate_data_hash gd ≠ calculate_data_hash ed)
    (hw : write_onedrive_excel_data env.writeToken gd env.eWrite = (s, m)) :
    sync_data env =
      ((if s then (true, "Sync completed: Google Sheets → OneDrive Excel")
        else (false, "Failed to sync to Excel: " ++ m)),
       [CallEvent.readA, CallEvent.readB, CallEvent.writeB gd]) := by
  unfold sync_data sync_try
  rw [hg]
  dsimp only
  rw [he]
  dsimp only
  rw [if_neg hne]
  simp only [google_modified, if_true]
  rw [hw]
  cases s <;> rfl

theorem read_google_ok_frame (service : Bool) (r : SheetsRead) (gd : PyData)
    (h : read_google_sheets_data service r = (gd, none)) :
    ∃ df, gd = PyData.frame df := by
  unfold read_google_sheets_data at h
  cases service with
  | false => simp at h
  | true =>
    cases r with
    | raise e => simp at h
    | vals v =>
      by_cases hv : v.isEmpty
      · simp [hv] at h
      · simp [hv] at h
        exact ⟨_, h.symm⟩

theorem read_onedrive_ok_token (token : Option String) (r : ExcelRead) (ed : PyData)
    (h : read_onedrive_excel_data token r = (ed, none)) :
    ∃ t, token = some t := by
  cases token with
  | none => simp [read_onedrive_excel_data] at h
  | some t => exact ⟨t, rfl⟩

theorem sync_try_ok (env : SyncEnv) : ∃ r, sync_try env = Except.ok r := by
  unfold sync_try
  rcases hg : read_google_sheets_data env.googleService env.gRead with ⟨gd, ge⟩
  cases ge with
  | some e => exact ⟨_, rfl⟩
  | none =>
    rcases he : read_onedrive_excel_data env.readToken env.eRead with ⟨ed, ee⟩
    cases ee with
    | some e => exact ⟨_, rfl⟩
    | none =>
      dsimp only
      by_cases hh : calculate_data_hash gd = calculate_data_hash ed
      · rw [if_pos hh]
        exact ⟨_, rfl⟩
      · rw [if_neg hh]
        rcases hw : write_onedrive_excel_data env.writeToken gd env.eWrite with ⟨s, m⟩
        cases s
        · exact ⟨_, rfl⟩
        · exact ⟨_, rfl⟩

/-! ## Concrete environments for witnesses -/

/-- A healthy environment in which the two sources hold different data. -/
def envC1 : SyncEnv :=
  { googleService := true
    gRead := SheetsRead.vals [["a"], ["x"]]
    readToken := some "tok"
    eRead := ExcelRead.resp 200 (ExcelParse.df ⟨["a"], [["y"]]⟩)
    writeToken := some "tok"
    eWrite := WriteBehavior.resp 200
    sWrite := SheetsWrite.updated 2 }

/-- A healthy environment in which the two sources hold identical data. -/
def envC2 : SyncEnv :=
  { googleService := true
    gRead := SheetsRead.vals [["a"], ["x"]]
    readToken := some "tok"
    eRead := ExcelRead.resp 200 (ExcelParse.df ⟨["a"], [["x"]]⟩)
    writeToken := some "tok"
    eWrite := WriteBehavior.resp 200
    sWrite := SheetsWrite.updated 2 }

/-- An environment whose Google Sheets handle never initialized. -/
def envC3 : SyncEnv :=
  { googleService := false
    gRead := SheetsRead.vals [["a"], ["x"]]
    readToken := some "tok"
    eRead := ExcelRead.resp 200 (ExcelParse.df ⟨["a"], [["y"]]⟩)
    writeToken := some "tok"
    eWrite := WriteBehavior.resp 200
    sWrite := SheetsWrite.updated 2 }

/-- A healthy environment with differing sources, like `envC1`, used for the
idempotence witness. -/
def envC6 : SyncEnv :=
  { googleService := true
    gRead := SheetsRead.vals [["id", "name"], ["1", "x"]]
    readToken := some "tok"
    eRead := ExcelRead.resp 200 (ExcelParse.df ⟨["id", "name"], [["1", "y"]]⟩)
    writeToken := some "tok"
    eWrite := WriteBehavior.resp 200
    sWrite := SheetsWrite.updated 4 }

/-- An environment in which every collaborator is down, and stays down: no
external change to either source between invocations. -/
def envC6bad : SyncEnv :=
  { googleService := false
    gRead := SheetsRead.raise "service down"
    readToken := none
    eRead := ExcelRead.raise "service down"
    writeToken := none
    eWrite := WriteBehavior.raise "service down"
    sWrite := SheetsWrite.raise "service down" }

/-- Like `envC1` but the OneDrive upload answers HTTP 500. -/
def envC7 : SyncEnv :=
  { googleService := true
    gRead := SheetsRead.vals [["a"], ["x"]]
    readToken := some "tok"
    eRead := ExcelRead.resp 200 (ExcelParse.df ⟨["a"], [["y"]]⟩)
    writeToken := some "tok"
    eWrite := WriteBehavior.resp 500
    sWrite := SheetsWrite.updated 2 }

/-- A healthy environment whose Google Sheets range is empty: the API
returns no `values`. -/
def envC10 : SyncEnv :=
  { googleService := true
    gRead := SheetsRead.vals []
    readToken := some "tok"
    eRead := ExcelRead.resp 200 (ExcelParse.df ⟨["a"], [["y"]]⟩)
    writeToken := some "tok"
    eWrite := WriteBehavior.resp 200
    sWrite := SheetsWrite.updated 2 }

/-- Two frames that differ in exactly one cell (`"x"` vs `" x"`) yet render
identically under `to_string`: the column is 3 wide because of the header
`abc`, and right-justification absorbs the leading space. -/
def exA : DataFrame := ⟨["abc"], [["x"]]⟩

/-- See `exA`. -/
def exB : DataFrame := ⟨["abc"], [[" x"]]⟩

/-- The stringified grids of `exA` and `exB` coincide, so the MD5 digests
coincide too. -/
theorem hash_exA_exB :
    calculate_data_hash (PyData.frame exA) = calculate_data_hash (PyData.frame exB) :=
  congrArg (fun s => md5hexBytes (utf8Encode s))
    (show dfToString exA = dfToString exB from rfl)

/-! ## The claims -/

/-- Claim C1: whenever both reads succeed and the two snapshots'
fingerprints differ, `sync_data` performs exactly the calls read-A, read-B,
write-to-B with A's snapshot (in particular it never calls the source-A
write), and when that write succeeds it returns success with the
A-to-B direction message. -/
theorem c1_a_is_authoritative (env : SyncEnv) (gd ed : PyData)
    (hg : read_google_sheets_data env.googleService env.gRead = (gd, none))
    (he : read_onedrive_excel_data env.readToken env.eRead = (ed, none))
    (hne : calculate_data_hash gd ≠ calculate_data_hash ed) :
    (sync_data env).2 = [CallEvent.readA, CallEvent.readB, CallEvent.writeB gd]
    ∧ (∀ d, CallEvent.writeA d ∉ (sync_data env).2)
    ∧ ((write_onedrive_excel_data env.writeToken gd env.eWrite).1 = true →
        (sync_data env).1 = (true, "Sync completed: Google Sheets → OneDrive Excel")) := by
  rcases hw : write_onedrive_excel_data env.writeToken gd env.eWrite with ⟨s, m⟩
  have hmain := sync_data_write env gd ed s m hg he hne hw
  refine ⟨by rw [hmain], ?_, ?_⟩
  · intro d
    rw [hmain]
    simp
  · intro hs
    rw [hmain]
    cases s with
    | false => simp at hs
    | true => rfl

/-- Witness for C1 at `envC1`. -/
theorem c1_a_is_authoritative_witness :
    read_google_sheets_data envC1.googleService envC1.gRead =
      (PyData.frame ⟨["a"], [["x"]]⟩, none)
    ∧ read_onedrive_excel_data envC1.readToken envC1.eRead =
      (PyData.frame ⟨["a"], [["y"]]⟩, none)
    ∧ calculate_data_hash (PyData.frame ⟨["a"], [["x"]]⟩) ≠
      calculate_data_hash (PyData.frame ⟨["a"], [["y"]]⟩)
    ∧ (sync_data envC1).2 =
      [CallEvent.readA, CallEvent.readB, CallEvent.writeB (PyData.frame ⟨["a"], [["x"]]⟩)]
    ∧ (sync_data envC1).1 = (true, "Sync completed: Google Sheets → OneDrive Excel") := by
  refine ⟨rfl, rfl, by decide, ?_, ?_⟩
  · exact (c1_a_is_authoritative envC1 _ _ rfl rfl (by decide)).1
  · exact (c1_a_is_authoritative envC1 _ _ rfl rfl (by decide)).2.2 rfl

/-- Claim C2: whenever both reads succeed and the fingerprints are equal,
`sync_data` returns the skip result and calls no write on either
collaborator. -/
theorem c2_equal_fingerprints_skip (env : SyncEnv) (gd ed : PyData)
    (hg : read_google_sheets_data env.googleService env.gRead = (gd, none))
    (he : read_onedrive_excel_data env.readToken env.eRead = (ed, none))
    (hh : calculate_data_hash gd = calculate_data_hash ed) :
    sync_data env = ((true, "No differences found - sync skipped"),
      [CallEvent.readA, CallEvent.readB])
    ∧ (∀ d, CallEvent.writeB d ∉ (sync_data env).2 ∧ CallEvent.writeA d ∉ (sync_data env).2) := by
  have hmain := sync_data_skip env gd ed hg he hh
  refine ⟨hmain, ?_⟩
  intro d
  rw [hmain]
  simp

/-- Witness for C2 at `envC2`. -/
theorem c2_equal_fingerprints_skip_witness :
    read_google_sheets_data envC2.googleService envC2.gRead =
      (PyData.frame ⟨["a"], [["x"]]⟩, none)
    ∧ read_onedrive_excel_data envC2.readToken envC2.eRead =
      (PyData.frame ⟨["a"], [["x"]]⟩, none)
    ∧ sync_data envC2 = ((true, "No differences found - sync skipped"),
      [CallEvent.readA, CallEvent.readB]) := by
  refine ⟨rfl, rfl, ?_⟩
  exact (c2_equal_fingerprints_skip envC2 _ _ rfl rfl rfl).1

/-- Claim C3: whenever source A's read fails, `sync_data` returns a failure
carrying the source-A error message, after the single read-A call: no
retry, and no write on either collaborator. -/
theorem c3_source_a_read_fail (env : SyncEnv) (gd : PyData) (err : String)
    (hg : read_google_sheets_data env.googleService env.gRead = (gd, some err)) :
    sync_data env = ((false, "Google Sheets error: " ++ err), [CallEvent.readA])
    ∧ (∀ d, CallEvent.writeB d ∉ (sync_data env).2 ∧ CallEvent.writeA d ∉ (sync_data env).2) := by
  have hmain := sync_data_gfail env gd err hg
  refine ⟨hmain, ?_⟩
  intro d
  rw [hmain]
  simp

/-- Witness for C3 at `envC3` (the Google Sheets handle never initialized,
so the read fails). -/
theorem c3_source_a_read_fail_witness :
    read_google_sheets_data envC3.googleService envC3.gRead =
      (PyData.pynone, some "Google Sheets service not initialized")
    ∧ sync_data envC3 = ((false, "Google Sheets error: Google Sheets service not initialized"),
      [CallEvent.readA]) := by
  refine ⟨rfl, ?_⟩
  have := (c3_source_a_read_fail envC3 PyData.pynone
    "Google Sheets service not initialized" rfl).1
  rw [this]
  rfl

/-- Claim C4: for every environment, including any in which a collaborator
faults (the `raise` behaviours), the `try` body of `sync_data` completes
with a result value: no exception reaches the outer handler or the caller,
and `sync_data` returns that value. -/
theorem c4_never_raises (env : SyncEnv) :
    sync_try env = Except.ok (sync_data env) := by
  obtain ⟨r, hr⟩ := sync_try_ok env
  unfold sync_data
  rw [hr]

/-- Counterexample to claim C5: the frames `exA` and `exB` differ in exactly
one cell (`"x"` vs `" x"`), yet the fingerprint function returns equal
values on them, because `to_string` right-justifies each cell within the
column width set by the header `abc`, which makes the stringified grids
identical. -/
theorem c5_counterexample :
    calculate_data_hash (PyData.frame exA) = calculate_data_hash (PyData.frame exB)
    ∧ exA ≠ exB
    ∧ exA.columns = exB.columns
    ∧ exA.rows.length = exB.rows.length
    ∧ diffCellCount exA exB = 1 :=
  ⟨hash_exA_exB, by decide, rfl, rfl, by decide⟩

/-- Claim C5 as amended: for any two snapshots with identical rows in
identical order the fingerprint function returns equal values, but a pair
of snapshots differing in a single cell need not get different values: the
concrete pair `exA`/`exB` differs in exactly one cell and collides. -/
theorem c5_fingerprint_equality :
    (∀ a b : DataFrame, a = b →
      calculate_data_hash (PyData.frame a) = calculate_data_hash (PyData.frame b))
    ∧ calculate_data_hash (PyData.frame exA) = calculate_data_hash (PyData.frame exB)
    ∧ diffCellCount exA exB = 1
    ∧ exA ≠ exB :=
  ⟨fun a b h => by rw [h], hash_exA_exB, by decide, by decide⟩

/-- Witness for the amended C5: the universally quantified part applied to
a concrete pair of identical frames. -/
theorem c5_fingerprint_equality_witness :
    calculate_data_hash (PyData.frame ⟨["a"], [["x"]]⟩) =
      calculate_data_hash (PyData.frame ⟨["a"], [["x"]]⟩) :=
  c5_fingerprint_equality.1 ⟨["a"], [["x"]]⟩ ⟨["a"], [["x"]]⟩ rfl

/-- Counterexample to claim C6 as stated: with every collaborator down and
staying down, nothing external changes between two consecutive invocations
(`envAfter envC6bad = envC6bad`), yet the second invocation returns a
failure, not the skip result. -/
theorem c6_counterexample :
    envAfter envC6bad = envC6bad
    ∧ (sync_data (envAfter envC6bad)).1 ≠ (true, "No differences found - sync skipped") := by
  constructor
  · rfl
  · intro h
    simp [envAfter, sync_data, sync_try, writtenToB, envC6bad,
      read_google_sheets_data] at h

/-- Claim C6 as amended: if an invocation succeeds (returns the skip or the
applied result), then a second invocation with no intervening external
change to either source (the destination reads back what was written to it,
everything else as before) returns the skip result. -/
theorem c6_second_sync_skips (env : SyncEnv)
    (h : (sync_data env).1.1 = true) :
    sync_data (envAfter env) = ((true, "No differences found - sync skipped"),
      [CallEvent.readA, CallEvent.readB]) := by
  rcases hg : read_google_sheets_data env.googleService env.gRead with ⟨gd, ge⟩
  cases ge with
  | some e =>
    rw [sync_data_gfail env gd e hg] at h
    simp at h
  | none =>
    rcases he : read_onedrive_excel_data env.readToken env.eRead with ⟨ed, ee⟩
    cases ee with
    | some e =>
      rw [sync_data_efail env gd ed e hg he] at h
      simp at h
    | none =>
      by_cases hh : calculate_data_hash gd = calculate_data_hash ed
      · have hs := sync_data_skip env gd ed hg he hh
        have hA : envAfter env = env := by
          unfold envAfter
          rw [hs]
          rfl
        rw [hA]
        exact hs
      · rcases hw : write_onedrive_excel_data env.writeToken gd env.eWrite with ⟨s, m⟩
        have hwr := sync_data_write env gd ed s m hg he hh hw
        cases s with
        | false =>
          rw [hwr] at h
          simp at h
        | true =>
          obtain ⟨df, hdf⟩ := read_google_ok_frame env.googleService env.gRead gd hg
          subst hdf
          obtain ⟨t, ht⟩ := read_onedrive_ok_token env.readToken env.eRead ed he
          have hA : envAfter env =
              { env with eRead := ExcelRead.resp 200 (ExcelParse.df df) } := by
            unfold envAfter
            rw [hwr]
            rfl
          rw [hA]
          apply sync_data_skip _ (PyData.frame df) (PyData.frame df)
          · exact hg
          · show read_onedrive_excel_data env.readToken (ExcelRead.resp 200 (ExcelParse.df df)) =
              (PyData.frame df, none)
            rw [ht]
            rfl
          · rfl

/-- Witness for the amended C6 at `envC6`: the first invocation succeeds
(it applies A's snapshot to B), and the second invocation skips. -/
theorem c6_second_sync_skips_witness :
    (sync_data envC6).1.1 = true
    ∧ sync_data (envAfter envC6) = ((true, "No differences found - sync skipped"),
      [CallEvent.readA, CallEvent.readB]) :=
  ⟨by decide, c6_second_sync_skips envC6 (by decide)⟩

/-- Claim C7: whenever both reads succeed, the fingerprints differ, and the
destination write fails, `sync_data` returns the write-stage failure and
the trace shows exactly one write call: no retry within the invocation. -/
theorem c7_write_fail_no_retry (env : SyncEnv) (gd ed : PyData) (m : String)
    (hg : read_google_sheets_data env.googleService env.gRead = (gd, none))
    (he : read_onedrive_excel_data env.readToken env.eRead = (ed, none))
    (hne : calculate_data_hash gd ≠ calculate_data_hash ed)
    (hw : write_onedrive_excel_data env.writeToken gd env.eWrite = (false, m)) :
    sync_data env = ((false, "Failed to sync to Excel: " ++ m),
      [CallEvent.readA, CallEvent.readB, CallEvent.writeB gd]) := by
  have hmain := sync_data_write env gd ed false m hg he hne hw
  rw [hmain]
  rfl

/-- Witness for C7 at `envC7` (upload answers HTTP 500). -/
theorem c7_write_fail_no_retry_witness :
    write_onedrive_excel_data envC7.writeToken (PyData.frame ⟨["a"], [["x"]]⟩) envC7.eWrite =
      (false, "Error uploading Excel file: 500")
    ∧ sync_data envC7 =
      ((false, "Failed to sync to Excel: Error uploading Excel file: 500"),
       [CallEvent.readA, CallEvent.readB, CallEvent.writeB (PyData.frame ⟨["a"], [["x"]]⟩)]) := by
  refine ⟨rfl, ?_⟩
  have := c7_write_fail_no_retry envC7 (PyData.frame ⟨["a"], [["x"]]⟩)
    (PyData.frame ⟨["a"], [["y"]]⟩) "Error uploading Excel file: 500"
    rfl rfl (by decide) rfl
  rw [this]
  rfl

/-- Claim C8: the fingerprint computation and the destination write leave
the snapshot they were given unchanged: the value held by the passed
object after the call is the value passed in. -/
theorem c8_snapshot_immutable (s : PyData) (token : Option String) (w : WriteBehavior) :
    (calculate_data_hash_call s).2 = s
    ∧ (write_onedrive_excel_data_call token s w).2 = s :=
  ⟨rfl, rfl⟩

/-- Claim C9: the `/status` response has the two collaborator fields and the
timestamp; each collaborator field is `"OK"` or `"Not configured"`, equals
`"OK"` exactly when the corresponding handle initialized at startup, and
does not depend on anything else (in particular not on the time). -/
theorem c9_status_fields (g m : Bool) (now : String) :
    ((status_route g m now).google_sheets = if g then "OK" else "Not configured")
    ∧ ((status_route g m now).onedrive = if m then "OK" else "Not configured")
    ∧ (status_route g m now).timestamp = now
    ∧ ((status_route g m now).google_sheets = "OK" ∨
        (status_route g m now).google_sheets = "Not configured")
    ∧ ((status_route g m now).onedrive = "OK" ∨
        (status_route g m now).onedrive = "Not configured")
    ∧ ∀ now2, (status_route g m now2).google_sheets = (status_route g m now).google_sheets
        ∧ (status_route g m now2).onedrive = (status_route g m now).onedrive := by
  refine ⟨rfl, rfl, rfl, ?_, ?_, fun now2 => ⟨rfl, rfl⟩⟩
  · cases g
    · exact Or.inr rfl
    · exact Or.inl rfl
  · cases m
    · exact Or.inr rfl
    · exact Or.inl rfl

/-- Claim C10: when source A's read succeeds at the transport level but the
sheet holds no values at all, `sync_data` reports a source-A failure with
the no-data message, after the single read-A call, and no write happens on
either collaborator: the empty snapshot is neither compared nor written. -/
theorem c10_empty_sheet_fails (env : SyncEnv)
    (hs : env.googleService = true) (hv : env.gRead = SheetsRead.vals []) :
    sync_data env = ((false, "Google Sheets error: No data found in Google Sheets"),
      [CallEvent.readA])
    ∧ (∀ d, CallEvent.writeB d ∉ (sync_data env).2 ∧ CallEvent.writeA d ∉ (sync_data env).2) := by
  have hg : read_google_sheets_data env.googleService env.gRead =
      (PyData.emptyList, some "No data found in Google Sheets") := by
    rw [hs, hv]
    rfl
  have hmain := sync_data_gfail env PyData.emptyList "No data found in Google Sheets" hg
  constructor
  · rw [hmain]
    rfl
  · intro d
    rw [hmain]
    simp

/-- Witness for C10 at `envC10`. -/
theorem c10_empty_sheet_fails_witness :
    envC10.googleService = true
    ∧ envC10.gRead = SheetsRead.vals []
    ∧ sync_data envC10 = ((false, "Google Sheets error: No data found in Google Sheets"),
      [CallEvent.readA]) := by
  refine ⟨rfl, rfl, ?_⟩
  exact (c10_empty_sheet_fails envC10 rfl rfl).1

end TwoWaySync
